import Mathlib

/-!
Shallow embedding of the photometric calibration core of
`SwiftPhotom/uvot.py` (functions `extract_photometry` and `output_mags`),
together with theorems settling the specification claims.

Numeric values are modelled over `ℝ`; the per-epoch FITS table rows are
modelled as a record of the columns the code reads; the two Python
dictionaries keyed by aperture label (`BCR_temp`/`BCRe_temp` and `mag`)
are modelled as functions `String → _` updated pointwise, which is
faithful on every key the code ever reads.
-/

namespace SwiftPhotom

open scoped Classical

/-- Zero point table `ZP` (uvot.py line 8): filter → (zero point, zero point error). -/
def ZP : String → Option (ℝ × ℝ)
  | "V" => some (17.88, 0.01)
  | "B" => some (18.98, 0.02)
  | "U" => some (19.36, 0.02)
  | "UVW1" => some (18.95, 0.03)
  | "UVM2" => some (18.54, 0.03)
  | "UVW2" => some (19.11, 0.03)
  | _ => none

/-- Vega offset table `Vega` (uvot.py line 9). -/
def Vega : String → Option ℝ
  | "V" => some (-0.01)
  | "B" => some (-0.13)
  | "U" => some 1.02
  | "UVW1" => some 1.51
  | "UVM2" => some 1.69
  | "UVW2" => some 1.73
  | _ => none

/-- Constant `mjdref = 51910.0`, the Swift MJD reference (uvot.py line 11). -/
def mjdref : ℝ := 51910.0

/-- Embeds `np.log10`, on the positive reals where the code uses it. -/
noncomputable def log10 (x : ℝ) : ℝ := Real.logb 10 x

/-- One row of the photometry FITS table `dd`: the columns read by
`extract_photometry` (uvot.py lines 308-326, 364, 376-379, 412-413). -/
structure ObsRow where
  SENSCORR_FACTOR : ℝ
  COI_SRC_RATE : ℝ
  COI_SRC_RATE_ERR : ℝ
  RAW_STD_RATE : ℝ
  RAW_STD_RATE_ERR : ℝ
  COI_STD_FACTOR : ℝ
  COI_BKG_RATE : ℝ
  COI_BKG_RATE_ERR : ℝ
  STD_AREA : ℝ
  AP_FACTOR : ℝ
  AP_FACTOR_ERR : ℝ
  TSTART : ℝ
  TSTOP : ℝ

/-- Epoch `mjd = mjdref + (TSTART + TSTOP)/2./86400.` (uvot.py line 364). -/
noncomputable def mjdOf (r : ObsRow) : ℝ :=
  mjdref + (r.TSTART + r.TSTOP) / 2 / 86400

/-- Source `S3BCR = COI_SRC_RATE * SENSCORR_FACTOR` (uvot.py lines 308-311):
corrected count rate in the user aperture. -/
noncomputable def S3BCR (r : ObsRow) : ℝ := r.COI_SRC_RATE * r.SENSCORR_FACTOR

/-- Source `S3BCRe` (uvot.py lines 314-317): user-aperture count-rate error,
3%-inflated only when a template exists (`template`) and this is the
science file (`i == 1`). -/
noncomputable def S3BCRe (template : Bool) (i : ℕ) (r : ObsRow) : ℝ :=
  if template = true ∧ i = 1 then
    Real.sqrt (r.COI_SRC_RATE_ERR ^ 2 + (S3BCR r * 0.03) ^ 2)
  else r.COI_SRC_RATE_ERR

/-- Source `S5CR = RAW_STD_RATE * COI_STD_FACTOR` (uvot.py line 320). -/
noncomputable def S5CR (r : ObsRow) : ℝ := r.RAW_STD_RATE * r.COI_STD_FACTOR

/-- Source `S5CRe = RAW_STD_RATE_ERR * COI_STD_FACTOR` (uvot.py line 321). -/
noncomputable def S5CRe (r : ObsRow) : ℝ := r.RAW_STD_RATE_ERR * r.COI_STD_FACTOR

/-- Source `S5BCR` (uvot.py line 322): background-corrected 5-arcsec rate. -/
noncomputable def S5BCR (r : ObsRow) : ℝ :=
  r.RAW_STD_RATE * r.COI_STD_FACTOR * r.SENSCORR_FACTOR -
    r.COI_BKG_RATE * r.SENSCORR_FACTOR * r.STD_AREA

/-- Source `S5BCRe` (uvot.py lines 323-326): 5-arcsec rate error, with the extra
3% term only when a template exists and this is the science file. -/
noncomputable def S5BCRe (template : Bool) (i : ℕ) (r : ObsRow) : ℝ :=
  if template = true ∧ i = 1 then
    Real.sqrt (S5CRe r ^ 2 + (S5CR r * 0.03) ^ 2 +
      (r.COI_BKG_RATE_ERR * r.STD_AREA) ^ 2)
  else
    Real.sqrt (S5CRe r ^ 2 + (r.COI_BKG_RATE_ERR * r.STD_AREA) ^ 2)

/-- Source `BCR_temp[label] = np.sum(BCR/BCRe**2)/np.sum(1./BCRe**2)`
(uvot.py line 351), over the list of template (rate, error) pairs. -/
noncomputable def BCR_temp (l : List (ℝ × ℝ)) : ℝ :=
  (l.map fun p => p.1 / p.2 ^ 2).sum / (l.map fun p => 1 / p.2 ^ 2).sum

/-- Source `BCRe_temp[label] = np.sqrt(1./np.sum(1./BCRe**2))` (uvot.py line 352). -/
noncomputable def BCRe_temp (l : List (ℝ × ℝ)) : ℝ :=
  Real.sqrt (1 / (l.map fun p => 1 / p.2 ^ 2).sum)

/-- Source `BCGR = BCR - BCR_temp[label]` (uvot.py line 371): template-subtracted rate. -/
noncomputable def BCGR (BCR tmplRate : ℝ) : ℝ := BCR - tmplRate

/-- Source `BCGRe = np.sqrt(BCRe**2 + BCRe_temp[label]**2)` (uvot.py line 372). -/
noncomputable def BCGRe (BCRe tmplErr : ℝ) : ℝ := Real.sqrt (BCRe ^ 2 + tmplErr ^ 2)

/-- Aperture-corrected rate (uvot.py lines 374-384): `BCGR * AP_FACTOR` when
`label == user_ap`, else `BCGR` unchanged. -/
noncomputable def BCGAR (user_ap label : String) (g apf : ℝ) : ℝ :=
  if label = user_ap then g * apf else g

/-- Aperture-corrected error (uvot.py lines 374-384): `BCGRe * AP_FACTOR_ERR`
when `label == user_ap`, else `BCGRe` unchanged. -/
noncomputable def BCGARe (user_ap label : String) (ge apfe : ℝ) : ℝ :=
  if label = user_ap then ge * apfe else ge

/-- Source `BCGARs = BCGAR / BCGARe` (uvot.py line 405): detection significance. -/
noncomputable def BCGARs (ar ae : ℝ) : ℝ := ar / ae

/-- Source `BCGAMl = -2.5*np.log10(3.*BCGARe) + ZP[filter][0] - Vega_corr[filter]`
(uvot.py line 406): 3-sigma limiting magnitude. -/
noncomputable def BCGAMl (ae zp vega : ℝ) : ℝ := -2.5 * log10 (3 * ae) + zp - vega

/-- One per-epoch output dictionary entry of the `mag` store
(uvot.py lines 410-418, 425, 429-436). -/
structure MagRecord where
  filter : String
  aperture_correction : ℝ
  coincidence_loss_correction : ℝ
  mag_sys : String
  mag_limit : ℝ
  template_subtracted : Bool
  mjd : ℝ
  upper_limit : Bool
  mag : ℝ
  mag_err : ℝ

/-- The run-wide parameters fixed before the science loop of
`extract_photometry`: the user aperture label (line 286), the template flag
(lines 276-277, 299), `_det_limit`, the filter calibration looked up once
per file (lines 279-284, 304), and the magnitude-system name. -/
structure RunCfg where
  user_ap : String
  template : Bool
  det_limit : ℝ
  zp : ℝ
  zpe : ℝ
  vega : ℝ
  mag_sys : String
  filter : String

/-- The body of the per-epoch loop over `j` for one aperture `label`
(uvot.py lines 371-436): subtract the template, apply the aperture
correction when the label is the user aperture, classify against
`_det_limit` (inclusive), and emit the record. -/
noncomputable def processEpoch (cfg : RunCfg) (label : String) (temp : ℝ × ℝ)
    (BCR BCRe : ℝ) (r : ObsRow) : MagRecord :=
  let g := BCGR BCR temp.1
  let ge := BCGRe BCRe temp.2
  let ar := BCGAR cfg.user_ap label g r.AP_FACTOR
  let ae := BCGARe cfg.user_ap label ge r.AP_FACTOR_ERR
  let ml := BCGAMl ae cfg.zp cfg.vega
  if BCGARs ar ae ≥ cfg.det_limit then
    { filter := cfg.filter
      aperture_correction := r.AP_FACTOR
      coincidence_loss_correction := r.COI_STD_FACTOR
      mag_sys := cfg.mag_sys
      mag_limit := ml
      template_subtracted := cfg.template
      mjd := mjdOf r
      upper_limit := false
      mag := -2.5 * log10 ar + cfg.zp - cfg.vega
      mag_err := Real.sqrt ((2.5 / Real.log 10 * (ae / ar)) ^ 2 + cfg.zpe ^ 2) }
  else
    { filter := cfg.filter
      aperture_correction := r.AP_FACTOR
      coincidence_loss_correction := r.COI_STD_FACTOR
      mag_sys := cfg.mag_sys
      mag_limit := ml
      template_subtracted := cfg.template
      mjd := mjdOf r
      upper_limit := true
      mag := ml
      mag_err := 0.2 }

/-- Science-pass rates for the user aperture: `(S3BCR, S3BCRe)` at `i = 1`
(uvot.py lines 311-317, 341). -/
noncomputable def sciPickUser (template : Bool) (r : ObsRow) : ℝ × ℝ :=
  (S3BCR r, S3BCRe template 1 r)

/-- Science-pass rates for the fixed 5-arcsec aperture: `(S5BCR, S5BCRe)` at
`i = 1` (uvot.py lines 320-326, 341). -/
noncomputable def sciPick5 (template : Bool) (r : ObsRow) : ℝ × ℝ :=
  (S5BCR r, S5BCRe template 1 r)

/-- Template-pass rates for the user aperture: `i = 0`, so the error is
never 3%-inflated (uvot.py lines 311-317). -/
noncomputable def templPickUser (r : ObsRow) : ℝ × ℝ :=
  (S3BCR r, S3BCRe true 0 r)

/-- Template-pass rates for the fixed 5-arcsec aperture: `i = 0`
(uvot.py lines 320-326). -/
noncomputable def templPick5 (r : ObsRow) : ℝ × ℝ :=
  (S5BCR r, S5BCRe true 0 r)

/-- Pointwise update of a Python-dict-as-function. -/
def updateF {α : Type _} (m : String → α) (k : String) (v : α) : String → α :=
  fun l => if l = k then v else m l

/-- The `BCR_temp`/`BCRe_temp` store after the `i = 0` template pass
(uvot.py lines 294-299, 346-352): zero when no template file is given,
otherwise the weighted means, written for `user_ap` first and then for
`'5_arcsec'` (overwriting, when the two labels coincide). -/
noncomputable def templateStore (templ : Option (List ObsRow)) (user_ap : String) :
    String → ℝ × ℝ :=
  match templ with
  | none => fun _ => (0, 0)
  | some trows =>
      updateF
        (updateF (fun _ => (0, 0)) user_ap
          (BCR_temp (trows.map templPickUser), BCRe_temp (trows.map templPickUser)))
        "5_arcsec"
        (BCR_temp (trows.map templPick5), BCRe_temp (trows.map templPick5))

/-- The `RunCfg` assembled by `extract_photometry` before the loops
(uvot.py lines 276-290, 304). -/
noncomputable def runCfgOf (ab : Bool) (det_limit : ℝ) (ap_size fname : String)
    (zp zpe vega : ℝ) (template : Bool) : RunCfg :=
  { user_ap := ap_size ++ "_arcsec"
    template := template
    det_limit := det_limit
    zp := zp
    zpe := zpe
    vega := if ab then 0 else vega
    mag_sys := if ab then "AB" else "Vega"
    filter := fname }

/-- The per-aperture record list appended by the inner `j` loop
(uvot.py lines 409-436): one `processEpoch` record per row. -/
noncomputable def passRecords (cfg : RunCfg) (temp : ℝ × ℝ) (label : String)
    (pick : ObsRow → ℝ × ℝ) (rows : List ObsRow) : List MagRecord :=
  rows.map fun r => processEpoch cfg label temp (pick r).1 (pick r).2 r

/-- The numeric core of `extract_photometry` (uvot.py lines 268-436): given
the configuration, the looked-up filter calibration, the optional template
rows and the science rows, produce the `mag` store.  The `i = 1` pass
appends the user-aperture records under `user_ap` and then the 5-arcsec
records under `'5_arcsec'`; when the labels coincide both passes append to
the same list. -/
noncomputable def runExtraction (ab : Bool) (det_limit : ℝ) (ap_size fname : String)
    (zp zpe vega : ℝ) (templ : Option (List ObsRow)) (rows : List ObsRow) :
    String → List MagRecord :=
  let user_ap := ap_size ++ "_arcsec"
  let template := templ.isSome
  let cfg := runCfgOf ab det_limit ap_size fname zp zpe vega template
  let ts := templateStore templ user_ap
  let m0 : String → List MagRecord := fun _ => []
  let m1 := updateF m0 user_ap
    (m0 user_ap ++ passRecords cfg (ts user_ap) user_ap (sciPickUser template) rows)
  updateF m1 "5_arcsec"
    (m1 "5_arcsec" ++ passRecords cfg (ts "5_arcsec") "5_arcsec" (sciPick5 template) rows)

/-- Function `extract_photometry` with the `ZP`/`Vega_corr` dictionary lookups for the
filter read from the science table (uvot.py lines 279-284, 304, 388-422):
`none` models the `KeyError` on an unsupported filter. -/
noncomputable def extract_photometry (ab : Bool) (det_limit : ℝ)
    (ap_size fname : String) (templ : Option (List ObsRow)) (rows : List ObsRow) :
    Option (String → List MagRecord) :=
  match ZP fname, Vega fname with
  | some zpp, some v => some (runExtraction ab det_limit ap_size fname zpp.1 zpp.2 v templ rows)
  | _, _ => none

/-- A Python/JSON scalar value as serialized by `json.dumps`. -/
inductive PyVal where
  | str : String → PyVal
  | num : ℝ → PyVal
  | pbool : Bool → PyVal

/-- Python dict insertion `d[k] = v` on an insertion-ordered association
list: overwrite in place if the key exists, else append. -/
def dictInsert (d : List (String × PyVal)) (k : String) (v : PyVal) :
    List (String × PyVal) :=
  if d.any fun kv => kv.1 == k then
    d.map fun kv => if kv.1 == k then (k, v) else kv
  else d ++ [(k, v)]

/-- The dictionary emitted for one record: the literal of uvot.py
lines 410-418 followed by the `'upper_limit'` (line 425 or 432), `'mag'`
(line 435) and `'mag_err'` (line 436) insertions. -/
def magDictOf (rec : MagRecord) : List (String × PyVal) :=
  dictInsert (dictInsert (dictInsert
    [("filter", PyVal.str rec.filter),
     ("aperture_correction", PyVal.num rec.aperture_correction),
     ("coincidence_loss_correction", PyVal.num rec.coincidence_loss_correction),
     ("mag_sys", PyVal.str rec.mag_sys),
     ("mag_limit", PyVal.num rec.mag_limit),
     ("template_subtracted", PyVal.pbool rec.template_subtracted),
     ("mjd", PyVal.num rec.mjd)]
    "upper_limit" (PyVal.pbool rec.upper_limit))
    "mag" (PyVal.num rec.mag))
    "mag_err" (PyVal.num rec.mag_err)

/-- Round to the nearest integer, ties to even, as `%` float formatting does. -/
noncomputable def roundHalfEven (x : ℝ) : ℤ :=
  if x - ⌊x⌋ < 1 / 2 then ⌊x⌋
  else if x - ⌊x⌋ > 1 / 2 then ⌊x⌋ + 1
  else if Even ⌊x⌋ then ⌊x⌋ else ⌊x⌋ + 1

/-- Python `'%.nf' % x` fixed-point formatting (uvot.py lines 538-540). -/
noncomputable def fmtFixed (n : ℕ) (x : ℝ) : String :=
  let m := (roundHalfEven (|x| * 10 ^ n)).toNat
  let ip := m / 10 ^ n
  let fr := m % 10 ^ n
  let frs := toString fr
  let frp := String.mk (List.replicate (n - frs.length) '0') ++ frs
  (if x < 0 then "-" else "") ++ toString ip ++ (if n = 0 then "" else "." ++ frp)

/-- One line of the textual report (uvot.py lines 528-542): mjd to 5
decimals, the filter, then `mag_limit` and error `0.0` for an upper limit,
else `mag` and `mag_err`, to 4 decimals, space separated. -/
noncomputable def reportLine (p : MagRecord) : String :=
  let mg := if p.upper_limit then p.mag_limit else p.mag
  let me := if p.upper_limit then (0 : ℝ) else p.mag_err
  fmtFixed 5 p.mjd ++ " " ++ p.filter ++ " " ++ fmtFixed 4 mg ++ " " ++ fmtFixed 4 me

/-- Source `sorted(_mag['5_arcsec'], key=lambda x: x['mjd'])` (uvot.py line 527):
a stable sort of the 5-arcsec list by mjd. -/
noncomputable def sorted5 (m : String → List MagRecord) : List MagRecord :=
  List.insertionSort (fun a b : MagRecord => a.mjd ≤ b.mjd) (m "5_arcsec")

/-- The artifacts produced by `output_mags`: the two serialized JSON arrays
and the lines of the printed 5-arcsec report. -/
structure OutputArtifacts where
  json_user : List (List (String × PyVal))
  json_5 : List (List (String × PyVal))
  report : List String

/-- Function `output_mags` (uvot.py lines 516-542): both JSON files are written from
the stored lists as they are (lines 519-523, before any sorting); only the
5-arcsec list is then sorted by mjd for the printed report (lines 527-542). -/
noncomputable def output_mags (m : String → List MagRecord) (ap_size : String) :
    OutputArtifacts :=
  { json_user := (m (ap_size ++ "_arcsec")).map magDictOf
    json_5 := (m "5_arcsec").map magDictOf
    report := (sorted5 m).map reportLine }

/-- Sample science row used by concrete witnesses. -/
noncomputable def wRow : ObsRow :=
  { SENSCORR_FACTOR := 1
    COI_SRC_RATE := 10
    COI_SRC_RATE_ERR := 1
    RAW_STD_RATE := 1
    RAW_STD_RATE_ERR := 1
    COI_STD_FACTOR := 1
    COI_BKG_RATE := 0
    COI_BKG_RATE_ERR := 0
    STD_AREA := 1
    AP_FACTOR := 1
    AP_FACTOR_ERR := 1
    TSTART := 0
    TSTOP := 0 }

/-- Sample run configuration used by concrete witnesses (B band, AB system,
detection threshold 3, user aperture 3 arcsec). -/
noncomputable def wCfg : RunCfg :=
  { user_ap := "3_arcsec"
    template := false
    det_limit := 3
    zp := 18.98
    zpe := 0.02
    vega := 0
    mag_sys := "AB"
    filter := "B" }

/-- A run configuration with a negative detection threshold, under which the
detection branch is reachable with a non-positive rate. -/
noncomputable def cfg6 : RunCfg :=
  { user_ap := "3_arcsec"
    template := false
    det_limit := -1
    zp := 18.98
    zpe := 0.02
    vega := 0
    mag_sys := "AB"
    filter := "B" }

/-- A science row whose user-aperture corrected rate is negative. -/
noncomputable def row6 : ObsRow :=
  { SENSCORR_FACTOR := 1
    COI_SRC_RATE := -(1 / 2)
    COI_SRC_RATE_ERR := 1
    RAW_STD_RATE := 1
    RAW_STD_RATE_ERR := 1
    COI_STD_FACTOR := 1
    COI_BKG_RATE := 0
    COI_BKG_RATE_ERR := 0
    STD_AREA := 1
    AP_FACTOR := 1
    AP_FACTOR_ERR := 1
    TSTART := 0
    TSTOP := 0 }

/-- A concrete emitted record with mjd 2. -/
noncomputable def recA : MagRecord :=
  { filter := "B"
    aperture_correction := 1
    coincidence_loss_correction := 1
    mag_sys := "Vega"
    mag_limit := 20
    template_subtracted := false
    mjd := 2
    upper_limit := false
    mag := 19
    mag_err := 1 / 10 }

/-- A concrete emitted record with mjd 1. -/
noncomputable def recB : MagRecord :=
  { filter := "B"
    aperture_correction := 1
    coincidence_loss_correction := 1
    mag_sys := "Vega"
    mag_limit := 20
    template_subtracted := false
    mjd := 1
    upper_limit := true
    mag := 18
    mag_err := 1 / 10 }

/-- A concrete `mag` store whose lists are not in chronological order. -/
noncomputable def storeC9 : String → List MagRecord :=
  updateF (updateF (fun _ => []) "3_arcsec" [recA, recB]) "5_arcsec" [recA, recB]

/-! ### Helper lemmas -/

theorem processEpoch_det (cfg : RunCfg) (label : String) (temp : ℝ × ℝ)
    (BCR BCRe : ℝ) (r : ObsRow)
    (h : BCGARs (BCGAR cfg.user_ap label (BCGR BCR temp.1) r.AP_FACTOR)
      (BCGARe cfg.user_ap label (BCGRe BCRe temp.2) r.AP_FACTOR_ERR) ≥ cfg.det_limit) :
    processEpoch cfg label temp BCR BCRe r =
      { filter := cfg.filter
        aperture_correction := r.AP_FACTOR
        coincidence_loss_correction := r.COI_STD_FACTOR
        mag_sys := cfg.mag_sys
        mag_limit := BCGAMl (BCGARe cfg.user_ap label (BCGRe BCRe temp.2) r.AP_FACTOR_ERR)
          cfg.zp cfg.vega
        template_subtracted := cfg.template
        mjd := mjdOf r
        upper_limit := false
        mag := -2.5 * log10 (BCGAR cfg.user_ap label (BCGR BCR temp.1) r.AP_FACTOR) +
          cfg.zp - cfg.vega
        mag_err := Real.sqrt ((2.5 / Real.log 10 *
          (BCGARe cfg.user_ap label (BCGRe BCRe temp.2) r.AP_FACTOR_ERR /
            BCGAR cfg.user_ap label (BCGR BCR temp.1) r.AP_FACTOR)) ^ 2 + cfg.zpe ^ 2) } := by
  simp only [processEpoch]
  rw [if_pos h]

theorem processEpoch_not_det (cfg : RunCfg) (label : String) (temp : ℝ × ℝ)
    (BCR BCRe : ℝ) (r : ObsRow)
    (h : ¬ BCGARs (BCGAR cfg.user_ap label (BCGR BCR temp.1) r.AP_FACTOR)
      (BCGARe cfg.user_ap label (BCGRe BCRe temp.2) r.AP_FACTOR_ERR) ≥ cfg.det_limit) :
    processEpoch cfg label temp BCR BCRe r =
      { filter := cfg.filter
        aperture_correction := r.AP_FACTOR
        coincidence_loss_correction := r.COI_STD_FACTOR
        mag_sys := cfg.mag_sys
        mag_limit := BCGAMl (BCGARe cfg.user_ap label (BCGRe BCRe temp.2) r.AP_FACTOR_ERR)
          cfg.zp cfg.vega
        template_subtracted := cfg.template
        mjd := mjdOf r
        upper_limit := true
        mag := BCGAMl (BCGARe cfg.user_ap label (BCGRe BCRe temp.2) r.AP_FACTOR_ERR)
          cfg.zp cfg.vega
        mag_err := 0.2 } := by
  simp only [processEpoch]
  rw [if_neg h]

theorem processEpoch_template_subtracted (cfg : RunCfg) (label : String)
    (temp : ℝ × ℝ) (BCR BCRe : ℝ) (r : ObsRow) :
    (processEpoch cfg label temp BCR BCRe r).template_subtracted = cfg.template := by
  simp only [processEpoch]
  split <;> rfl

theorem processEpoch_mag_limit (cfg : RunCfg) (label : String)
    (temp : ℝ × ℝ) (BCR BCRe : ℝ) (r : ObsRow) :
    (processEpoch cfg label temp BCR BCRe r).mag_limit =
      BCGAMl (BCGARe cfg.user_ap label (BCGRe BCRe temp.2) r.AP_FACTOR_ERR)
        cfg.zp cfg.vega := by
  simp only [processEpoch]
  split <;> rfl

/-! ### Claim theorems -/

/-- C1: for every science epoch and aperture, with significance
`ap_rate / ap_err`, significance at or above the detection threshold
(inclusive) yields `upper_limit = false`,
`mag = -2.5*log10(ap_rate) + zp - vega` and
`mag_err = sqrt((2.5/ln 10 * ap_err/ap_rate)^2 + zp_err^2)`; otherwise
`upper_limit = true`, `mag` is the 3-sigma limit
`-2.5*log10(3*ap_err) + zp - vega` and `mag_err` is fixed at 0.2. -/
theorem C1_detection_classification (cfg : RunCfg) (label : String)
    (temp : ℝ × ℝ) (BCR BCRe : ℝ) (r : ObsRow) :
    (BCGARs (BCGAR cfg.user_ap label (BCGR BCR temp.1) r.AP_FACTOR)
        (BCGARe cfg.user_ap label (BCGRe BCRe temp.2) r.AP_FACTOR_ERR) ≥ cfg.det_limit →
      (processEpoch cfg label temp BCR BCRe r).upper_limit = false ∧
      (processEpoch cfg label temp BCR BCRe r).mag =
        -2.5 * log10 (BCGAR cfg.user_ap label (BCGR BCR temp.1) r.AP_FACTOR) +
          cfg.zp - cfg.vega ∧
      (processEpoch cfg label temp BCR BCRe r).mag_err =
        Real.sqrt ((2.5 / Real.log 10 *
          (BCGARe cfg.user_ap label (BCGRe BCRe temp.2) r.AP_FACTOR_ERR /
            BCGAR cfg.user_ap label (BCGR BCR temp.1) r.AP_FACTOR)) ^ 2 + cfg.zpe ^ 2)) ∧
    (¬ BCGARs (BCGAR cfg.user_ap label (BCGR BCR temp.1) r.AP_FACTOR)
        (BCGARe cfg.user_ap label (BCGRe BCRe temp.2) r.AP_FACTOR_ERR) ≥ cfg.det_limit →
      (processEpoch cfg label temp BCR BCRe r).upper_limit = true ∧
      (processEpoch cfg label temp BCR BCRe r).mag =
        -2.5 * log10 (3 * BCGARe cfg.user_ap label (BCGRe BCRe temp.2) r.AP_FACTOR_ERR) +
          cfg.zp - cfg.vega ∧
      (processEpoch cfg label temp BCR BCRe r).mag =
        (processEpoch cfg label temp BCR BCRe r).mag_limit ∧
      (processEpoch cfg label temp BCR BCRe r).mag_err = 0.2) := by
  constructor
  · intro h
    rw [processEpoch_det cfg label temp BCR BCRe r h]
    exact ⟨rfl, rfl, rfl⟩
  · intro h
    rw [processEpoch_not_det cfg label temp BCR BCRe r h]
    exact ⟨rfl, rfl, rfl, rfl⟩

theorem C1_detection_classification_witness :
    BCGARs (BCGAR wCfg.user_ap "3_arcsec" (BCGR 10 ((0 : ℝ), (0 : ℝ)).1) wRow.AP_FACTOR)
      (BCGARe wCfg.user_ap "3_arcsec" (BCGRe 1 ((0 : ℝ), (0 : ℝ)).2) wRow.AP_FACTOR_ERR) ≥
      wCfg.det_limit ∧
    (processEpoch wCfg "3_arcsec" (0, 0) 10 1 wRow).upper_limit = false := by
  have h : BCGARs (BCGAR wCfg.user_ap "3_arcsec" (BCGR 10 ((0 : ℝ), (0 : ℝ)).1) wRow.AP_FACTOR)
      (BCGARe wCfg.user_ap "3_arcsec" (BCGRe 1 ((0 : ℝ), (0 : ℝ)).2) wRow.AP_FACTOR_ERR) ≥
      wCfg.det_limit := by
    simp [BCGARs, BCGAR, BCGARe, BCGR, BCGRe, wCfg, wRow]
    norm_num
  exact ⟨h, ((C1_detection_classification wCfg "3_arcsec" (0, 0) 10 1 wRow).1 h).1⟩

/-- C3: the user-aperture corrected rate is always
`COI_SRC_RATE * SENSCORR_FACTOR`; its error is `COI_SRC_RATE_ERR`
unchanged, except on the science pass with a template present, where the
3% of the corrected rate is added in quadrature; the template pass and
runs without a template are never inflated. -/
theorem C3_user_rate_correction (r : ObsRow) :
    (sciPickUser true r).1 = r.COI_SRC_RATE * r.SENSCORR_FACTOR ∧
    (sciPickUser false r).1 = r.COI_SRC_RATE * r.SENSCORR_FACTOR ∧
    (templPickUser r).1 = r.COI_SRC_RATE * r.SENSCORR_FACTOR ∧
    (sciPickUser true r).2 =
      Real.sqrt (r.COI_SRC_RATE_ERR ^ 2 +
        (0.03 * (r.COI_SRC_RATE * r.SENSCORR_FACTOR)) ^ 2) ∧
    (sciPickUser false r).2 = r.COI_SRC_RATE_ERR ∧
    (templPickUser r).2 = r.COI_SRC_RATE_ERR := by
  refine ⟨rfl, rfl, rfl, ?_, ?_, ?_⟩
  · show S3BCRe true 1 r = _
    rw [S3BCRe, if_pos ⟨rfl, rfl⟩, S3BCR]
    ring_nf
  · show S3BCRe false 1 r = _
    rw [S3BCRe, if_neg (by simp)]
  · show S3BCRe true 0 r = _
    rw [S3BCRe, if_neg (by simp)]

/-- C4: the fixed 5-arcsec background-corrected rate is
`RAW_STD_RATE*COI_STD_FACTOR*SENSCORR_FACTOR - COI_BKG_RATE*SENSCORR_FACTOR*STD_AREA`
and its error is the quadrature sum of `RAW_STD_RATE_ERR*COI_STD_FACTOR`
(plus `0.03*(RAW_STD_RATE*COI_STD_FACTOR)` only on the science pass with a
template) and `COI_BKG_RATE_ERR*STD_AREA`; the sensitivity correction enters
the rate but not the error. -/
theorem C4_fixed_aperture_correction (r : ObsRow) :
    (sciPick5 true r).1 =
      r.RAW_STD_RATE * r.COI_STD_FACTOR * r.SENSCORR_FACTOR -
        r.COI_BKG_RATE * r.SENSCORR_FACTOR * r.STD_AREA ∧
    (sciPick5 false r).1 =
      r.RAW_STD_RATE * r.COI_STD_FACTOR * r.SENSCORR_FACTOR -
        r.COI_BKG_RATE * r.SENSCORR_FACTOR * r.STD_AREA ∧
    (templPick5 r).1 =
      r.RAW_STD_RATE * r.COI_STD_FACTOR * r.SENSCORR_FACTOR -
        r.COI_BKG_RATE * r.SENSCORR_FACTOR * r.STD_AREA ∧
    (sciPick5 true r).2 =
      Real.sqrt ((r.RAW_STD_RATE_ERR * r.COI_STD_FACTOR) ^ 2 +
        (0.03 * (r.RAW_STD_RATE * r.COI_STD_FACTOR)) ^ 2 +
        (r.COI_BKG_RATE_ERR * r.STD_AREA) ^ 2) ∧
    (sciPick5 false r).2 =
      Real.sqrt ((r.RAW_STD_RATE_ERR * r.COI_STD_FACTOR) ^ 2 +
        (r.COI_BKG_RATE_ERR * r.STD_AREA) ^ 2) ∧
    (templPick5 r).2 =
      Real.sqrt ((r.RAW_STD_RATE_ERR * r.COI_STD_FACTOR) ^ 2 +
        (r.COI_BKG_RATE_ERR * r.STD_AREA) ^ 2) := by
  refine ⟨rfl, rfl, rfl, ?_, ?_, ?_⟩
  · show S5BCRe true 1 r = _
    rw [S5BCRe, if_pos ⟨rfl, rfl⟩, S5CRe, S5CR]
    ring_nf
  · show S5BCRe false 1 r = _
    rw [S5BCRe, if_neg (by simp), S5CRe]
  · show S5BCRe true 0 r = _
    rw [S5BCRe, if_neg (by simp), S5CRe]

theorem BCR_temp_replicate (N : ℕ) (r e : ℝ) (hN : 0 < N) (he : 0 < e) :
    BCR_temp (List.replicate N (r, e)) = r := by
  have hN' : (N : ℝ) ≠ 0 := Nat.cast_ne_zero.mpr hN.ne'
  have he2 : e ^ 2 ≠ 0 := pow_ne_zero 2 he.ne'
  rw [BCR_temp, List.map_replicate, List.map_replicate, List.sum_replicate,
    List.sum_replicate, nsmul_eq_mul, nsmul_eq_mul, mul_div_mul_left _ _ hN']
  show r / e ^ 2 / (1 / e ^ 2) = r
  rw [one_div, div_inv_eq_mul, div_mul_cancel₀ _ he2]

theorem BCRe_temp_replicate (N : ℕ) (r e : ℝ) (hN : 0 < N) (he : 0 < e) :
    BCRe_temp (List.replicate N (r, e)) = e / Real.sqrt N := by
  rw [BCRe_temp, List.map_replicate, List.sum_replicate, nsmul_eq_mul]
  show Real.sqrt (1 / ((N : ℝ) * (1 / e ^ 2))) = e / Real.sqrt N
  rw [mul_one_div, one_div_div, Real.sqrt_div (sq_nonneg e), Real.sqrt_sq he.le]

/-- C2: the template aggregate is the inverse-variance-weighted mean
`ref = Σ(rate/err²)/Σ(1/err²)` with `ref_err = sqrt(1/Σ(1/err²))`; a single
observation aggregates to itself, and N identical observations aggregate to
the same rate with error `err/sqrt(N)`. -/
theorem C2_template_weighted_mean :
    (∀ l : List (ℝ × ℝ),
      BCR_temp l = (l.map fun p => p.1 / p.2 ^ 2).sum / (l.map fun p => 1 / p.2 ^ 2).sum ∧
      BCRe_temp l = Real.sqrt (1 / (l.map fun p => 1 / p.2 ^ 2).sum)) ∧
    (∀ r e : ℝ, 0 < e → BCR_temp [(r, e)] = r ∧ BCRe_temp [(r, e)] = e) ∧
    (∀ (N : ℕ) (r e : ℝ), 0 < N → 0 < e →
      BCR_temp (List.replicate N (r, e)) = r ∧
      BCRe_temp (List.replicate N (r, e)) = e / Real.sqrt N) := by
  refine ⟨fun l => ⟨rfl, rfl⟩, ?_, ?_⟩
  · intro r e he
    constructor
    · have h := BCR_temp_replicate 1 r e one_pos he
      simpa using h
    · have h := BCRe_temp_replicate 1 r e one_pos he
      simpa [Real.sqrt_one] using h
  · intro N r e hN he
    exact ⟨BCR_temp_replicate N r e hN he, BCRe_temp_replicate N r e hN he⟩

theorem C2_template_weighted_mean_witness :
    (0 : ℝ) < 2 ∧ BCR_temp [((5 : ℝ), (2 : ℝ))] = 5 ∧
    0 < 4 ∧ BCRe_temp (List.replicate 4 ((5 : ℝ), (2 : ℝ))) = 2 / Real.sqrt 4 := by
  refine ⟨by norm_num, ?_, by norm_num, ?_⟩
  · exact (C2_template_weighted_mean.2.1 5 2 (by norm_num)).1
  · exact (C2_template_weighted_mean.2.2 4 5 2 (by norm_num) (by norm_num)).2

/-- C5 counterexample: when the configured aperture size is "5" the user
aperture label is the fixed label `5_arcsec`, and then the fixed-aperture
pass does NOT pass `sub_rate`/`sub_err` through unchanged: with
`AP_FACTOR = 2` the rate 1 becomes 2, and with `AP_FACTOR_ERR = 3` the
error 1 becomes 3. -/
theorem C5_aperture_correction_counterexample :
    ("5" ++ "_arcsec" : String) = "5_arcsec" ∧
    BCGAR "5_arcsec" "5_arcsec" 1 2 = 2 ∧
    BCGARe "5_arcsec" "5_arcsec" 1 3 = 3 ∧
    (2 : ℝ) ≠ 1 ∧ (3 : ℝ) ≠ 1 := by
  refine ⟨rfl, ?_, ?_, by norm_num, by norm_num⟩
  · rw [BCGAR, if_pos rfl, one_mul]
  · rw [BCGARe, if_pos rfl, one_mul]

/-- C5 (amended): `sub_rate = rate - ref.rate` and
`sub_err = sqrt(rate_err² + ref.err²)`; the aperture correction is applied
exactly when the pass label equals the user aperture label — so always on
the user pass (`ap_rate = sub_rate * AP_FACTOR`,
`ap_err = sub_err * AP_FACTOR_ERR`, the error multiplied by the factor's
error), and on the fixed 5-arcsec pass both quantities pass through
unchanged if and only if the user aperture label differs from `5_arcsec`
(with aperture size "5" the fixed pass is corrected as well). -/
theorem C5_aperture_correction_amended (cfg : RunCfg) (label u : String)
    (temp : ℝ × ℝ) (BCR BCRe g ge apf apfe tR tRe : ℝ) (r : ObsRow) :
    BCGR BCR tR = BCR - tR ∧
    BCGRe BCRe tRe = Real.sqrt (BCRe ^ 2 + tRe ^ 2) ∧
    BCGAR u u g apf = g * apf ∧
    BCGARe u u ge apfe = ge * apfe ∧
    (u ≠ "5_arcsec" → BCGAR u "5_arcsec" g apf = g ∧ BCGARe u "5_arcsec" ge apfe = ge) ∧
    BCGAR "5_arcsec" "5_arcsec" g apf = g * apf ∧
    (processEpoch cfg label temp BCR BCRe r).mag_limit =
      BCGAMl (BCGARe cfg.user_ap label (BCGRe BCRe temp.2) r.AP_FACTOR_ERR)
        cfg.zp cfg.vega := by
  refine ⟨rfl, rfl, if_pos rfl, if_pos rfl, ?_, if_pos rfl,
    processEpoch_mag_limit cfg label temp BCR BCRe r⟩
  intro hu
  have h : ¬ ("5_arcsec" = u) := fun hh => hu hh.symm
  exact ⟨if_neg h, if_neg h⟩

theorem C5_aperture_correction_witness :
    ("3_arcsec" : String) ≠ "5_arcsec" ∧ BCGAR "3_arcsec" "5_arcsec" 7 2 = 7 := by
  have hu : ("3_arcsec" : String) ≠ "5_arcsec" := by decide
  exact ⟨hu, ((C5_aperture_correction_amended wCfg "3_arcsec" "3_arcsec" (0, 0)
    0 0 7 0 2 0 0 0 wRow).2.2.2.2.1 hu).1⟩

/-- C6 counterexample: with detection threshold -1 and a row whose corrected
rate is -1/2, the detection branch is taken with `ap_rate = -1/2 ≤ 0`, and
`extract_photometry` raises nothing: the record is still emitted into the
catalog (one record, with `upper_limit = false`).  No `NonPhysicalFluxError`
exists in the code. -/
theorem C6_nonphysical_flux_counterexample :
    BCGAR "3_arcsec" "3_arcsec" (BCGR (S3BCR row6) 0) row6.AP_FACTOR ≤ 0 ∧
    BCGARs (BCGAR "3_arcsec" "3_arcsec" (BCGR (S3BCR row6) 0) row6.AP_FACTOR)
      (BCGARe "3_arcsec" "3_arcsec" (BCGRe (S3BCRe false 1 row6) 0) row6.AP_FACTOR_ERR) ≥
      (-1 : ℝ) ∧
    (runExtraction true (-1) "3" "B" 18.98 0.02 (-0.13) none [row6] "3_arcsec").map
      (fun rec => rec.upper_limit) = [false] ∧
    (runExtraction true (-1) "3" "B" 18.98 0.02 (-0.13) none [row6] "3_arcsec").length = 1 := by
  have hle : BCGAR "3_arcsec" "3_arcsec" (BCGR (S3BCR row6) 0) row6.AP_FACTOR ≤ 0 := by
    simp [BCGAR, BCGR, S3BCR, row6]
  have hdet : BCGARs (BCGAR "3_arcsec" "3_arcsec" (BCGR (S3BCR row6) 0) row6.AP_FACTOR)
      (BCGARe "3_arcsec" "3_arcsec" (BCGRe (S3BCRe false 1 row6) 0) row6.AP_FACTOR_ERR) ≥
      (-1 : ℝ) := by
    simp [BCGARs, BCGAR, BCGARe, BCGR, BCGRe, S3BCR, S3BCRe, row6]
    norm_num
  refine ⟨hle, hdet, ?_, ?_⟩
  · have hrun : runExtraction true (-1) "3" "B" 18.98 0.02 (-0.13) none [row6] "3_arcsec" =
        [processEpoch (runCfgOf true (-1) "3" "B" 18.98 0.02 (-0.13) false) "3_arcsec"
          (0, 0) (sciPickUser false row6).1 (sciPickUser false row6).2 row6] := rfl
    rw [hrun, List.map_singleton]
    have h : BCGARs (BCGAR (runCfgOf true (-1) "3" "B" 18.98 0.02 (-0.13) false).user_ap
        "3_arcsec" (BCGR (sciPickUser false row6).1 ((0 : ℝ), (0 : ℝ)).1) row6.AP_FACTOR)
        (BCGARe (runCfgOf true (-1) "3" "B" 18.98 0.02 (-0.13) false).user_ap "3_arcsec"
          (BCGRe (sciPickUser false row6).2 ((0 : ℝ), (0 : ℝ)).2) row6.AP_FACTOR_ERR) ≥
        (runCfgOf true (-1) "3" "B" 18.98 0.02 (-0.13) false).det_limit := by
      simp [runCfgOf, sciPickUser, BCGARs, BCGAR, BCGARe, BCGR, BCGRe, S3BCR, S3BCRe, row6]
      norm_num
    rw [processEpoch_det _ _ _ _ _ _ h]
  · have hrun : runExtraction true (-1) "3" "B" 18.98 0.02 (-0.13) none [row6] "3_arcsec" =
        [processEpoch (runCfgOf true (-1) "3" "B" 18.98 0.02 (-0.13) false) "3_arcsec"
          (0, 0) (sciPickUser false row6).1 (sciPickUser false row6).2 row6] := rfl
    rw [hrun]
    rfl

/-- C6 (amended): when the detection branch is taken, the code raises no
error even when `ap_rate ≤ 0`: the record is emitted with
`upper_limit = false` and `mag = -2.5*log10(ap_rate) + zp - vega` computed
from the non-positive rate (a NaN at runtime); no `NonPhysicalFluxError`
exists in the code. -/
theorem C6_nonphysical_flux_amended (cfg : RunCfg) (label : String)
    (temp : ℝ × ℝ) (BCR BCRe : ℝ) (r : ObsRow)
    (hdet : BCGARs (BCGAR cfg.user_ap label (BCGR BCR temp.1) r.AP_FACTOR)
      (BCGARe cfg.user_ap label (BCGRe BCRe temp.2) r.AP_FACTOR_ERR) ≥ cfg.det_limit)
    (hnp : BCGAR cfg.user_ap label (BCGR BCR temp.1) r.AP_FACTOR ≤ 0) :
    (processEpoch cfg label temp BCR BCRe r).upper_limit = false ∧
    (processEpoch cfg label temp BCR BCRe r).mag =
      -2.5 * log10 (BCGAR cfg.user_ap label (BCGR BCR temp.1) r.AP_FACTOR) +
        cfg.zp - cfg.vega := by
  rw [processEpoch_det cfg label temp BCR BCRe r hdet]
  exact ⟨rfl, rfl⟩

theorem C6_nonphysical_flux_witness :
    BCGARs (BCGAR cfg6.user_ap "3_arcsec" (BCGR (-(1 / 2)) ((0 : ℝ), (0 : ℝ)).1) wRow.AP_FACTOR)
      (BCGARe cfg6.user_ap "3_arcsec" (BCGRe 1 ((0 : ℝ), (0 : ℝ)).2) wRow.AP_FACTOR_ERR) ≥
      cfg6.det_limit ∧
    BCGAR cfg6.user_ap "3_arcsec" (BCGR (-(1 / 2)) ((0 : ℝ), (0 : ℝ)).1) wRow.AP_FACTOR ≤ 0 ∧
    (processEpoch cfg6 "3_arcsec" (0, 0) (-(1 / 2)) 1 wRow).upper_limit = false := by
  have hdet : BCGARs (BCGAR cfg6.user_ap "3_arcsec" (BCGR (-(1 / 2)) ((0 : ℝ), (0 : ℝ)).1)
      wRow.AP_FACTOR) (BCGARe cfg6.user_ap "3_arcsec" (BCGRe 1 ((0 : ℝ), (0 : ℝ)).2)
      wRow.AP_FACTOR_ERR) ≥ cfg6.det_limit := by
    simp [BCGARs, BCGAR, BCGARe, BCGR, BCGRe, cfg6, wRow]
    norm_num
  have hnp : BCGAR cfg6.user_ap "3_arcsec" (BCGR (-(1 / 2)) ((0 : ℝ), (0 : ℝ)).1)
      wRow.AP_FACTOR ≤ 0 := by
    simp [BCGAR, BCGR, cfg6, wRow]
  exact ⟨hdet, hnp,
    (C6_nonphysical_flux_amended cfg6 "3_arcsec" (0, 0) (-(1 / 2)) 1 wRow hdet hnp).1⟩

theorem template_subtracted_runExtraction (ab : Bool) (det : ℝ)
    (ap_size fname : String) (zp zpe vega : ℝ) (templ : Option (List ObsRow))
    (rows : List ObsRow) (l : String) (rec : MagRecord)
    (h : rec ∈ runExtraction ab det ap_size fname zp zpe vega templ rows l) :
    rec.template_subtracted = templ.isSome := by
  simp only [runExtraction, updateF] at h
  split at h
  · rcases List.mem_append.1 h with h1 | h2
    · split at h1
      · rcases List.mem_append.1 h1 with h0 | h1
        · exact absurd h0 (List.not_mem_nil rec)
        · rcases List.mem_map.1 h1 with ⟨r, _, hr⟩
          rw [← hr, processEpoch_template_subtracted]
          rfl
      · exact absurd h1 (List.not_mem_nil rec)
    · rcases List.mem_map.1 h2 with ⟨r, _, hr⟩
      rw [← hr, processEpoch_template_subtracted]
      rfl
  · split at h
    · rcases List.mem_append.1 h with h0 | h1
      · exact absurd h0 (List.not_mem_nil rec)
      · rcases List.mem_map.1 h1 with ⟨r, _, hr⟩
        rw [← hr, processEpoch_template_subtracted]
        rfl
    · exact absurd h (List.not_mem_nil rec)

/-- C7: with no template input, nothing is raised: the template reference is
(0, 0) for every aperture label, every record emitted by the run carries
`template_subtracted = false`, and subtraction against the zero reference
changes neither the rate nor (for a nonnegative error) the error. -/
theorem C7_empty_template (ab : Bool) (det : ℝ) (ap_size fname : String)
    (zp zpe vega : ℝ) (rows : List ObsRow) :
    (∀ u l : String, templateStore none u l = (0, 0)) ∧
    (∀ (l : String) (rec : MagRecord),
      rec ∈ runExtraction ab det ap_size fname zp zpe vega none rows l →
      rec.template_subtracted = false) ∧
    (∀ (u l : String) (BCR : ℝ), BCGR BCR (templateStore none u l).1 = BCR) ∧
    (∀ (u l : String) (e : ℝ), 0 ≤ e → BCGRe e (templateStore none u l).2 = e) := by
  refine ⟨fun u l => rfl, ?_, ?_, ?_⟩
  · intro l rec h
    have := template_subtracted_runExtraction ab det ap_size fname zp zpe vega none rows l rec h
    simpa using this
  · intro u l BCR
    show BCGR BCR 0 = BCR
    rw [BCGR, sub_zero]
  · intro u l e he
    show BCGRe e 0 = e
    rw [BCGRe]
    rw [show (0 : ℝ) ^ 2 = 0 by norm_num, add_zero, Real.sqrt_sq he]

theorem C7_empty_template_witness :
    (processEpoch (runCfgOf true 3 "3" "B" 18.98 0.02 (-0.13) false) "3_arcsec" (0, 0)
        (sciPickUser false wRow).1 (sciPickUser false wRow).2 wRow) ∈
      runExtraction true 3 "3" "B" 18.98 0.02 (-0.13) none [wRow] "3_arcsec" ∧
    (processEpoch (runCfgOf true 3 "3" "B" 18.98 0.02 (-0.13) false) "3_arcsec" (0, 0)
        (sciPickUser false wRow).1 (sciPickUser false wRow).2 wRow).template_subtracted =
      false ∧
    (0 : ℝ) ≤ 1 ∧ BCGRe 1 (templateStore none "3_arcsec" "3_arcsec").2 = 1 := by
  have hrun : runExtraction true 3 "3" "B" 18.98 0.02 (-0.13) none [wRow] "3_arcsec" =
      [processEpoch (runCfgOf true 3 "3" "B" 18.98 0.02 (-0.13) false) "3_arcsec" (0, 0)
        (sciPickUser false wRow).1 (sciPickUser false wRow).2 wRow] := rfl
  have hmem : (processEpoch (runCfgOf true 3 "3" "B" 18.98 0.02 (-0.13) false) "3_arcsec"
      (0, 0) (sciPickUser false wRow).1 (sciPickUser false wRow).2 wRow) ∈
      runExtraction true 3 "3" "B" 18.98 0.02 (-0.13) none [wRow] "3_arcsec" := by
    rw [hrun]
    exact List.mem_singleton.mpr rfl
  refine ⟨hmem, ?_, by norm_num, ?_⟩
  · exact (C7_empty_template true 3 "3" "B" 18.98 0.02 (-0.13) [wRow]).2.1 "3_arcsec" _ hmem
  · exact (C7_empty_template true 3 "3" "B" 18.98 0.02 (-0.13) [wRow]).2.2.2 "3_arcsec"
      "3_arcsec" 1 (by norm_num)

/-- C10: with aperture size "5" the user label equals the fixed label, the
two passes append to the same list (the 5-arcsec catalog holds the user-pass
records followed by the fixed-pass records, so each epoch appears twice),
and the two JSON artifacts written by `output_mags` coincide. -/
theorem C10_collapsed_catalog (ab : Bool) (det : ℝ) (fname : String)
    (zp zpe vega : ℝ) (templ : Option (List ObsRow)) (rows : List ObsRow) :
    ("5" ++ "_arcsec" : String) = "5_arcsec" ∧
    runExtraction ab det "5" fname zp zpe vega templ rows "5_arcsec" =
      passRecords (runCfgOf ab det "5" fname zp zpe vega templ.isSome)
        (templateStore templ "5_arcsec" "5_arcsec") "5_arcsec"
        (sciPickUser templ.isSome) rows ++
      passRecords (runCfgOf ab det "5" fname zp zpe vega templ.isSome)
        (templateStore templ "5_arcsec" "5_arcsec") "5_arcsec"
        (sciPick5 templ.isSome) rows ∧
    (runExtraction ab det "5" fname zp zpe vega templ rows "5_arcsec").length =
      2 * rows.length ∧
    (∀ m : String → List MagRecord,
      (output_mags m "5").json_user = (output_mags m "5").json_5) := by
  refine ⟨rfl, rfl, ?_, fun m => rfl⟩
  show (passRecords (runCfgOf ab det "5" fname zp zpe vega templ.isSome)
      (templateStore templ "5_arcsec" "5_arcsec") "5_arcsec"
      (sciPickUser templ.isSome) rows ++
    passRecords (runCfgOf ab det "5" fname zp zpe vega templ.isSome)
      (templateStore templ "5_arcsec" "5_arcsec") "5_arcsec"
      (sciPick5 templ.isSome) rows).length = 2 * rows.length
  rw [List.length_append, passRecords, passRecords, List.length_map, List.length_map]
  omega

/-- C8 counterexample: the serialized records do not carry the names
`epoch_mjd`, `magnitude_system`, `is_upper_limit`; they carry `mjd`,
`mag_sys`, `upper_limit` instead. -/
theorem C8_field_names_counterexample :
    "epoch_mjd" ∉ (magDictOf recA).map Prod.fst ∧
    "magnitude_system" ∉ (magDictOf recA).map Prod.fst ∧
    "is_upper_limit" ∉ (magDictOf recA).map Prod.fst ∧
    "mjd" ∈ (magDictOf recA).map Prod.fst ∧
    "mag_sys" ∈ (magDictOf recA).map Prod.fst ∧
    "upper_limit" ∈ (magDictOf recA).map Prod.fst := by
  have h : (magDictOf recA).map Prod.fst =
      ["filter", "aperture_correction", "coincidence_loss_correction", "mag_sys",
       "mag_limit", "template_subtracted", "mjd", "upper_limit", "mag", "mag_err"] := rfl
  rw [h]
  decide

/-- C8 (amended): every serialized record carries exactly the field names
`filter`, `aperture_correction`, `coincidence_loss_correction`, `mag_sys`,
`mag_limit`, `template_subtracted`, `mjd`, `upper_limit`, `mag`, `mag_err`,
in this insertion order. -/
theorem C8_field_names_amended (rec : MagRecord) :
    (magDictOf rec).map Prod.fst =
      ["filter", "aperture_correction", "coincidence_loss_correction", "mag_sys",
       "mag_limit", "template_subtracted", "mjd", "upper_limit", "mag", "mag_err"] := rfl

theorem filter_orderedInsert_mjd (c : ℝ) (a : MagRecord) (L : List MagRecord) :
    ((List.orderedInsert (fun x y : MagRecord => x.mjd ≤ y.mjd) a L).filter
        fun x => decide (x.mjd = c)) =
      ((a :: L).filter fun x => decide (x.mjd = c)) := by
  induction L with
  | nil => rfl
  | cons b L ih =>
      by_cases hab : a.mjd ≤ b.mjd
      · rw [List.orderedInsert_of_le (fun x y : MagRecord => x.mjd ≤ y.mjd) L hab]
      · have hstep : List.orderedInsert (fun x y : MagRecord => x.mjd ≤ y.mjd) a (b :: L) =
            b :: List.orderedInsert (fun x y : MagRecord => x.mjd ≤ y.mjd) a L := by
          simp [List.orderedInsert, hab]
        rw [hstep]
        by_cases hpb : b.mjd = c
        · have hpa : ¬ a.mjd = c := by
            intro hpa
            exact hab (le_of_eq (hpa.trans hpb.symm))
          simp only [List.filter_cons, ih]
          simp [hpa, hpb]
        · simp only [List.filter_cons, ih]
          simp [hpb]

theorem filter_insertionSort_mjd (c : ℝ) (L : List MagRecord) :
    ((List.insertionSort (fun x y : MagRecord => x.mjd ≤ y.mjd) L).filter
        fun x => decide (x.mjd = c)) =
      (L.filter fun x => decide (x.mjd = c)) := by
  induction L with
  | nil => rfl
  | cons a L ih =>
      show ((List.orderedInsert (fun x y : MagRecord => x.mjd ≤ y.mjd) a
        (List.insertionSort (fun x y : MagRecord => x.mjd ≤ y.mjd) L)).filter
          fun x => decide (x.mjd = c)) = _
      rw [filter_orderedInsert_mjd c a
        (List.insertionSort (fun x y : MagRecord => x.mjd ≤ y.mjd) L)]
      simp only [List.filter_cons, ih]

/-- C9 counterexample: the JSON array for the user aperture is serialized in
computation order, not sorted by mjd: with a store holding records at mjd 2
then mjd 1, the serialized `mjd` fields come out as 2 then 1. -/
theorem C9_output_ordering_counterexample :
    ((output_mags storeC9 "3").json_user.map fun d => d.lookup "mjd") =
      [some (PyVal.num recA.mjd), some (PyVal.num recB.mjd)] ∧
    recA.mjd = 2 ∧ recB.mjd = 1 ∧ ¬ ((2 : ℝ) ≤ 1) := by
  exact ⟨rfl, rfl, rfl, by norm_num⟩

/-- C9 (amended): both JSON arrays are serialized in the stored computation
order (neither is sorted at output time); only the printed 5-arcsec report
uses the list sorted by mjd — a stable sorted permutation of the stored
5-arcsec list, with ties left in input order — and each report line is
mjd to 5 decimals, the filter, the magnitude (the limit for an upper
limit) to 4 decimals, and the error (0.0 for an upper limit) to 4
decimals. -/
theorem C9_output_ordering_amended (m : String → List MagRecord) (ap_size : String) :
    (output_mags m ap_size).json_user = (m (ap_size ++ "_arcsec")).map magDictOf ∧
    (output_mags m ap_size).json_5 = (m "5_arcsec").map magDictOf ∧
    List.Sorted (fun a b : MagRecord => a.mjd ≤ b.mjd) (sorted5 m) ∧
    (sorted5 m).Perm (m "5_arcsec") ∧
    (∀ c : ℝ, ((sorted5 m).filter fun x => decide (x.mjd = c)) =
      ((m "5_arcsec").filter fun x => decide (x.mjd = c))) ∧
    (output_mags m ap_size).report = (sorted5 m).map reportLine ∧
    (output_mags m ap_size).report.length = (m "5_arcsec").length ∧
    (∀ p : MagRecord, reportLine p =
      fmtFixed 5 p.mjd ++ " " ++ p.filter ++ " " ++
        fmtFixed 4 (if p.upper_limit then p.mag_limit else p.mag) ++ " " ++
        fmtFixed 4 (if p.upper_limit then (0 : ℝ) else p.mag_err)) := by
  refine ⟨rfl, rfl, ?_, List.perm_insertionSort _ _, ?_, rfl, ?_, fun p => rfl⟩
  · haveI : IsTotal MagRecord (fun a b : MagRecord => a.mjd ≤ b.mjd) :=
      ⟨fun a b => le_total a.mjd b.mjd⟩
    haveI : IsTrans MagRecord (fun a b : MagRecord => a.mjd ≤ b.mjd) :=
      ⟨fun a b c hab hbc => le_trans hab hbc⟩
    exact List.sorted_insertionSort _ _
  · intro c
    exact filter_insertionSort_mjd c (m "5_arcsec")
  · show ((sorted5 m).map reportLine).length = (m "5_arcsec").length
    rw [List.length_map]
    exact (List.perm_insertionSort _ _).length_eq

end SwiftPhotom
